import Mathlib

/-!
Verification development for the shvnk-Flux backend (JavaScript).

The repository orchestrates AI-generated code into rendered video.  This file
gives a shallow embedding of the pieces of the code base that the correctness
claims are about:

* `utils/codegenValidator.js`  — denylist scan of generated Manim code;
* `utils/codegenService.js` / `services/codegenService.js` — fence stripping
  and shape validation of generated code (two variants exist in the repo);
* `services/manimRenderer.js`  — the `close`-event handler of the Manim CLI
  process: output discovery, partial-file classification and cleanup;
* `services/p5Renderer.js`     — the frame-capture/encode sequence;
* `utils/detectChrome.js`, `utils/detectManim.js` and the Electron Chrome
  detector — executable-discovery resolution order;
* the `POST /api/generate` handler and the `GET /api/logs` SSE poller of
  `server-node/index.js` — job lifecycle and log streaming.

Strings are modelled as `List Char`; the filesystem reachable from the Manim
renderer's close handler is modelled explicitly as a tree of named entries.
-/

namespace Flux

/-- Program strings, modelled as lists of characters. -/
abbrev Str := List Char

/-- Coerce a Lean string literal to the model's string type. -/
def str (s : String) : Str := s.data

/-- JavaScript `\s` on the ASCII range (space, tab, newline, carriage return,
vertical tab, form feed); the unicode space classes JS also accepts are not
modelled. -/
def isWsChar (c : Char) : Bool :=
  c = ' ' || c = '\t' || c = '\n' || c = '\r' || c = '\x0b' || c = '\x0c'

/-- JavaScript `\w`: ASCII letters, digits and underscore. -/
def isWordChar (c : Char) : Bool := c.isAlphanum || c = '_'

/-- If `tok` is a leading segment of `s`, return what follows it. -/
def stripLead : Str → Str → Option Str
  | [], s => some s
  | _, [] => none
  | a :: as, b :: bs => if a = b then stripLead as bs else none

/-- Drop a maximal run of leading whitespace (JS `\s*` with greedy munch). -/
def skipWs : Str → Str
  | [] => []
  | c :: t => if isWsChar c then skipWs t else c :: t

/-- JS `hay.includes(needle)`: the needle occurs somewhere in the haystack. -/
def containsSub (needle : Str) : Str → Bool
  | [] => needle.isEmpty
  | c :: t => needle.isPrefixOf (c :: t) || containsSub needle t

/-- Does predicate `p` hold of some suffix of the string?  Used to model an
unanchored regular-expression test. -/
def someSuffix (p : Str → Bool) : Str → Bool
  | [] => p []
  | c :: t => p (c :: t) || someSuffix p t

/-- Regex `tok\s*\(` tested at the start of the string. -/
def tokenParenHere (tok : Str) (s : Str) : Bool :=
  match stripLead tok s with
  | some rest =>
    match skipWs rest with
    | '(' :: _ => true
    | _ => false
  | none => false

/-- Regex `/tok\s*\(/` (unanchored), e.g. `/Axes\s*\(/`. -/
def tokenParenTest (tok : Str) (s : Str) : Bool :=
  someSuffix (tokenParenHere tok) s

/-- Regex `import\s+tok` tested at the start of the string: the literal
`import`, at least one whitespace character, then the literal `tok`. -/
def importThenHere (tok : Str) (s : Str) : Bool :=
  match stripLead (str "import") s with
  | some (c :: rest) => isWsChar c && (stripLead tok (skipWs rest)).isSome
  | _ => false

/-- Regex `/import\s+tok/` (unanchored). -/
def importThenTest (tok : Str) (s : Str) : Bool :=
  someSuffix (importThenHere tok) s

/-! ### `utils/codegenValidator.js` — the Manim denylist -/

/-- One entry of `bannedPatterns`: the regex's display text (what JS string
interpolation `${pattern}` produces) and its match function. -/
structure BannedPat where
  display : Str
  test : Str → Bool

/-- The fixed denylist of `codegenValidator.js`, in source order. -/
def bannedPatterns : List BannedPat :=
  [ ⟨str "/Axes\\s*\\(/", tokenParenTest (str "Axes")⟩,
    ⟨str "/Surface\\s*\\(/", tokenParenTest (str "Surface")⟩,
    ⟨str "/ParametricFunction\\s*\\(/", tokenParenTest (str "ParametricFunction")⟩,
    ⟨str "/np\\.math/", containsSub (str "np.math")⟩,
    ⟨str "/set_shade_in_scene/", containsSub (str "set_shade_in_scene")⟩,
    ⟨str "/MathTex\\s*\\(/", tokenParenTest (str "MathTex")⟩,
    ⟨str "/Tex\\s*\\(/", tokenParenTest (str "Tex")⟩,
    ⟨str "/import\\s+np/", importThenTest (str "np")⟩,
    ⟨str "/import\\s+numpy/", importThenTest (str "numpy")⟩ ]

/-- The `for` loop of `validateManimCode`: first pattern that matches. -/
def firstBanned : List BannedPat → Str → Option BannedPat
  | [], _ => none
  | p :: ps, code => if p.test code then some p else firstBanned ps code

/-- Error text thrown by `validateManimCode` for a matched pattern. -/
def prohibitedMsg (display : Str) : Str :=
  str "Generated Manim code contains prohibited construct: " ++ display

/-- Source `validateManimCode(code)`: throws on the first denylisted pattern. -/
def validateManimCode (code : Str) : Except Str Unit :=
  match firstBanned bannedPatterns code with
  | some p => .error (prohibitedMsg p.display)
  | none => .ok ()

/-! ### `cleanCode` and `validateGeneratedCode` (both codegen variants) -/

/-- JS `String.prototype.trim`. -/
def trimCL (s : Str) : Str :=
  ((s.dropWhile isWsChar).reverse.dropWhile isWsChar).reverse

/-- The replace of regex `^\x60\x60\x60(?:\w+)?\s*` by the empty string: strip a leading code fence with an
optional language word and trailing whitespace. -/
def stripLeadFence (s : Str) : Str :=
  match stripLead (str "```") s with
  | some rest => skipWs (rest.dropWhile isWordChar)
  | none => s

/-- The replace of regex `\s*\x60\x60\x60$` by the empty string: strip a trailing code fence together with the
maximal whitespace run immediately before it. -/
def stripTrailFence (s : Str) : Str :=
  match stripLead (str "```") s.reverse with
  | some rest => (rest.dropWhile isWsChar).reverse
  | none => s

/-- Source `cleanCode(raw)`: trim, then drop a leading fence, then a trailing one. -/
def cleanCode (raw : Str) : Str :=
  stripTrailFence (stripLeadFence (trimCL raw))

/-- Error text for p5 shape validation. -/
def p5ShapeMsg : Str :=
  str "Invalid p5.js generation: must start with \x27function setup()\x27"

/-- Error text for Manim shape validation. -/
def manimShapeMsg : Str :=
  str "Invalid Manim generation: must contain \x27class GeneratedScene\x27"

/-- Source `validateGeneratedCode(code, engine)`: p5 output must start with
`function setup()`, Manim output must contain `class GeneratedScene`. -/
def validateGeneratedCode (code engine : Str) : Except Str Unit :=
  let trimmed := trimCL code
  if engine == str "p5" && !((str "function setup()").isPrefixOf trimmed) then
    .error p5ShapeMsg
  else if engine == str "manim" && !(containsSub (str "class GeneratedScene") trimmed) then
    .error manimShapeMsg
  else
    .ok ()

/-- Function `generateCode` of `utils/codegenService.js`, modelled from the point where
the remote API's response text `raw` is in hand: clean, run the Manim denylist
(for the manim engine), then shape-validate, returning the cleaned code. -/
def generateCodeUtils (raw engine : Str) : Except Str Str :=
  if !(engine == str "p5" || engine == str "manim") then
    .error (str "Invalid engine in generateCode")
  else
    let cleaned := cleanCode raw
    match (if engine == str "manim" then validateManimCode cleaned else .ok ()) with
    | .error e => .error e
    | .ok _ =>
      match validateGeneratedCode cleaned engine with
      | .error e => .error e
      | .ok _ => .ok cleaned

/-- Function `generateCode` of `services/codegenService.js` (the other variant in the
repo), likewise from the response text on: it cleans and shape-validates but
never invokes the Manim denylist. -/
def generateCodeServices (raw engine : Str) : Except Str Str :=
  if !(engine == str "p5" || engine == str "manim") then
    .error (str "Invalid engine in generateCode")
  else
    let cleaned := cleanCode raw
    match validateGeneratedCode cleaned engine with
    | .error e => .error e
    | .ok _ => .ok cleaned

/-! ### The `POST /api/generate` handler (`server-node/index.js`)

A render job record as stored in the in-memory `jobs` table, and the sequence
of states one job record passes through while its request is handled.  The
remote codegen call and the renderer are external collaborators; the handler
model takes their outcomes (`cg`, `render`) as parameters.  JavaScript runs
the handler on a single event loop, so each mutation of the record is one
atomic step of the trace. -/

/-- Field `job.status`: the only two values the server ever assigns. -/
inductive JStatus
  | pending
  | done
deriving DecidableEq, Repr

/-- One entry of the `jobs` table. -/
structure Job where
  logs : List Str
  status : JStatus
  videoPath : Option Str
deriving DecidableEq, Repr

/-- Node `path.basename`: the final segment of a slash-separated path. -/
def baseName (p : Str) : Str :=
  (p.reverse.takeWhile (fun c => c ≠ '/')).reverse

/-- The URL stored into `job.videoPath` on render success
(`/videos/` followed by the basename of the returned file path). -/
def videosUrl (videoPath : Str) : Str :=
  str "/videos/" ++ baseName videoPath

/-- What the `POST /api/generate` handler does to its job record, as the list
of successive states of that record, together with whether a renderer was
invoked and what the HTTP response was. -/
structure HandlerOut where
  jobStates : List Job
  renderSpawned : Bool
  response : Except Str Unit
deriving Repr

/-- The `POST /api/generate` handler of `server-node/index.js`, for one
request: create the job as `pending`, log, run codegen; on codegen failure
answer 400 and stop (the job record is left as is); on success answer with the
run id and continue asynchronously: log, dispatch to the engine's renderer
(`render` is that renderer's outcome; an engine other than `p5`/`manim`
throws `Invalid engine during render`), then either record the video URL, set
status `done` and log completion, or log the error and set status `done`. -/
def postGenerate (cg : Except Str Str) (engine : Str) (render : Except Str Str) :
    HandlerOut :=
  let s0 : Job := ⟨[], .pending, none⟩
  let s1 : Job := { s0 with logs := s0.logs ++ [str "Code generation started"] }
  match cg with
  | .error e => ⟨[s0, s1], false, .error e⟩
  | .ok _ =>
    let s2 : Job := { s1 with logs := s1.logs ++ [str "Code generation completed"] }
    let s3 : Job := { s2 with logs := s2.logs ++ [str "Rendering started using " ++ engine] }
    let engineValid : Bool := engine == str "p5" || engine == str "manim"
    let outcome : Except Str Str :=
      if engineValid then render else .error (str "Invalid engine during render")
    match outcome with
    | .ok vp =>
      let s4 : Job := { s3 with videoPath := some (videosUrl vp) }
      let s5 : Job := { s4 with status := .done }
      let s6 : Job := { s5 with logs := s5.logs ++ [str "Rendering complete"] }
      ⟨[s0, s1, s2, s3, s4, s5, s6], engineValid, .ok ()⟩
    | .error e =>
      let s4 : Job := { s3 with logs := s3.logs ++ [str "Error: " ++ e] }
      let s5 : Job := { s4 with status := .done }
      ⟨[s0, s1, s2, s3, s4, s5], engineValid, .ok ()⟩

/-- Count of `pending → done` steps between consecutive states of a trace. -/
def doneTransitions : List Job → Nat
  | a :: b :: rest =>
    (if a.status = .pending ∧ b.status = .done then 1 else 0) + doneTransitions (b :: rest)
  | _ => 0

/-- No step of the trace moves a job from `done` back to `pending`. -/
def noBackTransition : List Job → Prop
  | a :: b :: rest =>
    ¬(a.status = .done ∧ b.status = .pending) ∧ noBackTransition (b :: rest)
  | _ => True

/-! ### `services/manimRenderer.js` — the CLI `close` handler

The handler runs when the Manim CLI exits.  The filesystem it can reach is:
the per-job working directory `outDir` (a tree of files and directories, or
absent), the canonical output `MEDIA_DIR/<runId>.mp4`, and the stray
`MEDIA_DIR/GeneratedScene.mp4` the CLI sometimes writes at the media root.
Directory listings are modelled in `readdir` order. -/

/-- A filesystem entry: a file, or a directory with its ordered children. -/
inductive FsTree
  | file (name : Str)
  | dir (name : Str) (children : List FsTree)

/-- The filesystem state the close handler reads and writes. -/
structure FsState where
  /-- `MEDIA_DIR/<runId>.mp4` exists. -/
  finalVideoExists : Bool
  /-- the children of `outDir`, or `none` when `outDir` does not exist. -/
  outDir : Option (List FsTree)
  /-- `MEDIA_DIR/GeneratedScene.mp4` exists at the media root. -/
  rootScene : Bool

/-- The fixed output filename the renderer searches for. -/
def sceneFileName : Str := str "GeneratedScene.mp4"

-- `findManimVideo`: depth-first search of a directory listing, in `readdir`
-- order, for a file named `GeneratedScene.mp4`; returns its relative path.
mutual

/-- The body of the `findManimVideo` loop for one entry: a matching file is
returned, a directory is searched recursively. -/
def findInTree : FsTree → Option (List Str)
  | .file n => if n = sceneFileName then some [n] else none
  | .dir n cs => (findInEntries cs).map (fun p => n :: p)

/-- The `findManimVideo` loop over a directory listing, in `readdir` order:
the first find wins. -/
def findInEntries : List FsTree → Option (List Str)
  | [] => none
  | e :: rest =>
    match findInTree e with
    | some p => some p
    | none => findInEntries rest

end

/-- Source `findManimVideo(outDir)` (returns `null` when `outDir` is absent). -/
def findManimVideo : Option (List FsTree) → Option (List Str)
  | none => none
  | some cs => findInEntries cs

-- `fs.existsSync` for a relative path against a directory listing:
-- intermediate components must be directories, the last may be either kind.
mutual

/-- Does the relative path name this entry (or something under it)? -/
def pathInTree : FsTree → List Str → Bool
  | _, [] => false
  | .file m, [n] => m == n
  | .file _, _ :: _ :: _ => false
  | .dir m _, [n] => m == n
  | .dir m cs, n :: c :: p => m == n && pathInEntries cs (c :: p)

/-- Node `fs.existsSync` of a relative path against a directory listing. -/
def pathInEntries : List FsTree → List Str → Bool
  | [], _ => false
  | e :: rest, p => pathInTree e p || pathInEntries rest p

end

/-- The `commonLocations` fallback list, relative to `outDir`. -/
def commonLocations : List (List Str) :=
  [ [sceneFileName],
    [str "2160p60", sceneFileName],
    [str "1080p60", sceneFileName],
    [str "720p30", sceneFileName],
    [str "480p15", sceneFileName] ]

/-- The common-locations loop: first location that exists under `outDir`. -/
def findCommonLocation (out : Option (List FsTree)) : Option (List Str) :=
  match out with
  | none => none
  | some cs => commonLocations.find? (fun loc => pathInEntries cs loc)

-- `checkForPartialFiles`: every file under the directory, in `readdir`
-- order, whose name contains `uncached_` or `partial`.
mutual

/-- The contribution of one entry to `checkForPartialFiles`. -/
def leftoversInTree : FsTree → List (List Str)
  | .file n =>
    if containsSub (str "uncached_") n || containsSub (str "partial") n
      then [[n]] else []
  | .dir n cs => (leftoversInEntries cs).map (fun p => n :: p)

/-- The `checkForPartialFiles` loop over a directory listing. -/
def leftoversInEntries : List FsTree → List (List Str)
  | [] => []
  | e :: rest => leftoversInTree e ++ leftoversInEntries rest

end

/-- Source `checkForPartialFiles(outDir)` (empty when `outDir` is absent). -/
def checkForPartialFiles : Option (List FsTree) → List (List Str)
  | none => []
  | some cs => leftoversInEntries cs

/-- The nonzero-exit message classifier: ordered substring matching over the
captured stderr text, with a generic fallback. -/
def classifyError (stderrData : Str) : Str :=
  if containsSub (str "TypeError") stderrData then
    if containsSub (str "use_quadratic_bezier") stderrData then
      str "Code uses deprecated Manim API. Please try regenerating with a simpler prompt."
    else if containsSub (str "unexpected keyword argument") stderrData then
      str "Generated code uses incorrect method parameters. Try regenerating with a different approach."
    else
      str "TypeError in generated code. The AI may have used incorrect method parameters."
  else if containsSub (str "AttributeError") stderrData then
    str "AttributeError in generated code. The AI may have used non-existent methods."
  else if containsSub (str "ImportError") stderrData ||
      containsSub (str "ModuleNotFoundError") stderrData then
    str "Missing required Python packages for Manim rendering."
  else if containsSub (str "SyntaxError") stderrData then
    str "Syntax error in generated Python code."
  else if containsSub (str "NameError") stderrData then
    str "Variable or function name error in generated code."
  else if containsSub (str "MemoryError") stderrData ||
      containsSub (str "OutOfMemoryError") stderrData then
    str "Insufficient memory for rendering. Try reducing animation complexity or duration."
  else if containsSub (str "FFmpeg") stderrData then
    str "Video encoding failed. There may be an issue with the animation timeline or FFmpeg."
  else
    str "Manim rendering failed"

/-- The `incomplete render` rejection text. -/
def incompleteMsg : Str :=
  str "Manim rendering incomplete: Final video assembly failed. This may be due to complex animations or system resource constraints. Try simplifying the prompt."

/-- The `no output found` rejection text (the source interpolates the
`outDir` path into it; the path is elided here). -/
def noOutputMsg : Str :=
  str "Could not find GeneratedScene.mp4 in the output directory. Manim may have failed silently."

/-- How the promise settles: `resolved` always carries the canonical
`MEDIA_DIR/<runId>.mp4` path, so only the rejection text is recorded. -/
inductive RenderResult
  | resolved
  | rejected (msg : Str)
deriving DecidableEq, Repr

/-- The observable outcome of the close handler: how the promise settled, the
filesystem afterwards, and whether the nested recursive search and the
common-locations loop were performed. -/
structure CloseOutcome where
  result : RenderResult
  fs : FsState
  searchedNested : Bool
  checkedCommon : Bool

/-- The `proc.on('close', ...)` handler of `generateWithManim`.

Exit code zero: if the canonical output already exists, remove `outDir` and
resolve (short circuit); otherwise search `outDir` recursively, then the
common locations; if a video is found, copy it to the canonical path, remove
`outDir` and resolve; if not, collect partial artifacts — when some exist,
either rescue a stray `MEDIA_DIR/GeneratedScene.mp4` (copy, unlink, remove
`outDir`, resolve) or remove `outDir` and reject as incomplete; when none
exist, reject with the no-output message, leaving `outDir` in place.

Nonzero exit code: classify the captured stderr and remove `outDir`. -/
def onClose (exitCode : Int) (st : FsState) (stderrData : Str) : CloseOutcome :=
  if exitCode = 0 then
    if st.finalVideoExists then
      ⟨.resolved, { st with outDir := none }, false, false⟩
    else
      match findManimVideo st.outDir with
      | some _ =>
        ⟨.resolved, { st with finalVideoExists := true, outDir := none }, true, false⟩
      | none =>
        match findCommonLocation st.outDir with
        | some _ =>
          ⟨.resolved, { st with finalVideoExists := true, outDir := none }, true, true⟩
        | none =>
          if 0 < (checkForPartialFiles st.outDir).length then
            if st.rootScene then
              ⟨.resolved,
                { st with finalVideoExists := true, rootScene := false, outDir := none },
                true, true⟩
            else
              ⟨.rejected incompleteMsg, { st with outDir := none }, true, true⟩
          else
            ⟨.rejected noOutputMsg, st, true, true⟩
  else
    ⟨.rejected (classifyError stderrData), { st with outDir := none }, false, false⟩

/-! ### `services/p5Renderer.js` — frame capture and encoding

After the page is loaded, the renderer runs
`for (let i = 0; i < totalFrames; i++) { screenshot; evaluate draw() }`
and then spawns ffmpeg once.  The sequence of externally visible actions is
modelled as a trace. -/

/-- One externally visible action of the p5 render loop. -/
inductive P5Ev
  | shot (i : Nat)
  | drawCall (i : Nat)
  | encode
deriving DecidableEq, Repr

/-- Constant `frameRateValue` in `generateWithP5`. -/
def frameRateValue : Nat := 30

/-- Source `totalFrames = durationSecs * frameRateValue`. -/
def totalFrames (durationSecs : Nat) : Nat := durationSecs * frameRateValue

/-- The capture loop's action trace for the first `n` iterations: iteration
`i` screenshots frame `i` and then invokes the sketch's `draw()`. -/
def frameSteps : Nat → List P5Ev
  | 0 => []
  | n + 1 => frameSteps n ++ [P5Ev.shot n, P5Ev.drawCall n]

/-- The full action trace of `generateWithP5` from the start of the capture
loop: all frame iterations, then one ffmpeg invocation. -/
def p5Trace (durationSecs : Nat) : List P5Ev :=
  frameSteps (totalFrames durationSecs) ++ [P5Ev.encode]

/-- Extract the screenshot index from an action, if it is a screenshot. -/
def shotIndex : P5Ev → Option Nat
  | .shot i => some i
  | _ => none

/-! ### Tool detectors

`utils/detectManim.js`, `utils/detectChrome.js` and the Electron Chrome
detector all resolve an executable through an ordered list of discovery
methods.  The host is modelled as a record of the answers those methods would
give; each detector is the pure resolution function over that record (the
process-wide cache is empty, i.e. this is the first detection of the
process — later calls just replay the cached answer). -/

/-- The host as seen by `detectManim`. -/
structure ManimHost where
  /-- `process.env.MANIM_PATH`. -/
  envPath : Option Str
  /-- does `fs.access(p, X_OK)` succeed? -/
  executable : Str → Bool
  /-- result of `which.sync('manim')`, if it finds one. -/
  whichManim : Option Str
  /-- result of `which.sync('manimce')`, if it finds one. -/
  whichManimce : Option Str
  /-- does `which.sync('python3')` succeed? -/
  python3Found : Bool
  /-- does `which.sync('python')` succeed? -/
  pythonFound : Bool

/-- Steps 2–5 of `detectManim`: binary lookups, then the python check that
selects which error to raise. -/
def detectManimScan (h : ManimHost) : Except Str Str :=
  match h.whichManim with
  | some p => .ok p
  | none =>
    match h.whichManimce with
    | some p => .ok p
    | none =>
      if !h.python3Found && !h.pythonFound then
        .error (str "Python executable not found. Please install Python 3.10+ and Manim Community Edition.")
      else
        .error (str "Manim executable not found. Please install Manim Community Edition (e.g. \x60pip install manim\x60).")

/-- Source `detectManim()`: environment override first (silently skipped when the
named path is missing or not executable), then the scan. -/
def detectManim (h : ManimHost) : Except Str Str :=
  match h.envPath with
  | some p => if h.executable p then .ok p else detectManimScan h
  | none => detectManimScan h

/-- Case-insensitive test for `/beta|dev/i`. -/
def isBetaDev (p : Str) : Bool :=
  containsSub (str "beta") (p.map Char.toLower) ||
    containsSub (str "dev") (p.map Char.toLower)

/-- The host as seen by `utils/detectChrome.js`. -/
structure ChromeHost where
  /-- `process.env.CHROME_PATH`. -/
  envPath : Option Str
  /-- does `fs.access(p, X_OK)` succeed? -/
  executable : Str → Bool
  /-- `Launcher.getInstallations()`, or `none` when the dynamic import or the
  scan threw. -/
  installations : Option (List Str)
  /-- result of `which.sync(name)` per candidate name, if it finds one. -/
  whichResult : Str → Option Str

/-- Steps 2–4 of `utils/detectChrome.js`: chrome-launcher installations
(preferring the first non-beta/dev entry), then `which` over the candidate
names, then the failure. -/
def detectChromeScan (h : ChromeHost) : Except Str Str :=
  match h.installations with
  | some (i :: is) =>
    (match (i :: is).find? (fun p => !(isBetaDev p)) with
      | some stable => .ok stable
      | none => .ok i)
  | _ =>
    match ([str "google-chrome", str "chrome", str "chromium"].findSome?
        (fun name => h.whichResult name)) with
    | some p => .ok p
    | none =>
      .error (str "Chrome executable not found. Please install Chrome or set CHROME_PATH environment variable.")

/-- Source `detectChrome()` of `utils/detectChrome.js`: environment override first
(access failure only logs and falls through), then the scan. -/
def detectChrome (h : ChromeHost) : Except Str Str :=
  match h.envPath with
  | some p => if h.executable p then .ok p else detectChromeScan h
  | none => detectChromeScan h

/-- The host as seen by the Electron Chrome detector (the variant with
platform path scanning and the Windows registry fallback). -/
structure ChromeHost3 where
  /-- `process.env.CHROME_PATH`. -/
  envPath : Option Str
  /-- does `fs.access(p, F_OK | X_OK)` succeed (`checkFileExists`)? -/
  fileOk : Str → Bool
  /-- `electron-is-dev`. -/
  isDev : Bool
  /-- `Launcher.getInstallations()`, or `none` when it threw. -/
  installations : Option (List Str)
  /-- result of `which.sync(name)` per candidate name, if it finds one. -/
  whichResult : Str → Option Str
  /-- the per-platform `CHROME_PATHS` entries, wildcards already expanded via
  `readdir`; `os.platform()` and `os.homedir()` are folded into this list. -/
  platformCandidates : List Str
  /-- the path parsed out of the Windows registry query, when on win32 and
  the query succeeds. -/
  registryPath : Option Str

/-- Steps 2–6 of the Electron Chrome detector: chrome-launcher only in dev
mode (and only paths that pass `checkFileExists`), `which` over four
candidate names, the platform-specific path list, the registry value, then
the failure. -/
def detectChrome3Scan (h : ChromeHost3) : Except Str Str :=
  let fromLauncher : Option Str :=
    if h.isDev then
      match h.installations with
      | some (i :: is) =>
        let stable := match (i :: is).find? (fun p => !(isBetaDev p)) with
          | some s => s
          | none => i
        if h.fileOk stable then some stable else none
      | _ => none
    else none
  match fromLauncher with
  | some p => .ok p
  | none =>
    match ([str "google-chrome", str "chrome", str "chromium",
        str "google-chrome-stable"].findSome?
        (fun name => match h.whichResult name with
          | some p => if h.fileOk p then some p else none
          | none => none)) with
    | some p => .ok p
    | none =>
      match h.platformCandidates.find? (fun p => h.fileOk p) with
      | some p => .ok p
      | none =>
        match h.registryPath with
        | some p =>
          if h.fileOk p then .ok p
          else .error (str "Chrome executable not found (see searched paths).")
        | none => .error (str "Chrome executable not found (see searched paths).")

/-- The Electron `detectChrome()`: environment override first (a warning is
logged when the named path fails `checkFileExists`, then the detector falls
through), then the scan. -/
def detectChrome3 (h : ChromeHost3) : Except Str Str :=
  match h.envPath with
  | some p => if h.fileOk p then .ok p else detectChrome3Scan h
  | none => detectChrome3Scan h

/-! ### `GET /api/logs` — the SSE poller

The endpoint keeps a per-connection cursor `lastIndex` into the job's log
list, flushes `logs[lastIndex..)` on connect and then on every interval tick,
and on the first tick that observes `status === 'done'` (after flushing)
emits the terminal `done` event with the job's `videoPath` and closes.  The
server is single-threaded, so log appends and ticks interleave atomically. -/

/-- The per-connection state of one `/api/logs` response. -/
structure StreamSt where
  lastIndex : Nat
  delivered : List Str
  closed : Bool
  /-- the payload of the terminal `done` event, once emitted. -/
  doneEvent : Option (Option Str)
deriving DecidableEq, Repr

/-- Source `sendLogs()`: write `logs[lastIndex..)` to the response and advance the
cursor to the end of the log list. -/
def sendLogs (logs : List Str) (s : StreamSt) : StreamSt :=
  if s.lastIndex < logs.length then
    { s with delivered := s.delivered ++ logs.drop s.lastIndex, lastIndex := logs.length }
  else s

/-- One interval tick: nothing once closed; otherwise flush, and if the job
is done, emit the terminal event and close (interval cleared, response
ended). -/
def tickStream (j : Job) (s : StreamSt) : StreamSt :=
  if s.closed then s
  else
    let s' := sendLogs j.logs s
    if j.status = .done then
      { s' with closed := true, doneEvent := some j.videoPath }
    else s'

/-- Connecting to `/api/logs`: cursor at zero, then the immediate flush. -/
def connectStream (j : Job) : StreamSt :=
  sendLogs j.logs ⟨0, [], false, none⟩

/-- An atomic event of the server's event loop, as seen by one job record and
one log-stream connection. -/
inductive SrvEv
  /-- `jobs[runId].logs.push(line)` (while the job is still running). -/
  | push (line : Str)
  /-- the job's terminal mutation: final log line, `status = 'done'`, and the
  result `videoPath` (left `none` on the failure path). -/
  | complete (vp : Option Str) (line : Str)
  /-- one firing of the 1-second poll interval. -/
  | tick
deriving DecidableEq, Repr

/-- Run the event loop: job mutations update the record, ticks drive the
stream. -/
def runStream : Job → StreamSt → List SrvEv → Job × StreamSt
  | j, s, [] => (j, s)
  | j, s, .push l :: evs =>
    runStream { j with logs := j.logs ++ [l] } s evs
  | j, s, .complete vp l :: evs =>
    runStream ⟨j.logs ++ [l], .done, vp⟩ s evs
  | j, s, .tick :: evs => runStream j (tickStream j s) evs

/-- Events allowed while the job is still running: appends and ticks. -/
def isRunningEv : SrvEv → Bool
  | .push _ => true
  | .tick => true
  | .complete _ _ => false

/-- The connection invariant of the SSE poller: the cursor is inside the log
list, exactly the lines below the cursor have been written out, and the
stream is still open with no terminal event sent. -/
def StreamInv (j : Job) (s : StreamSt) : Prop :=
  s.lastIndex ≤ j.logs.length ∧ s.delivered = j.logs.take s.lastIndex ∧
    s.closed = false ∧ s.doneEvent = none

/-- Did the codegen call succeed? -/
def exceptOk : Except Str Str → Bool
  | .ok _ => true
  | .error _ => false

/-- A concrete Manim scene text containing the denylisted `Axes(` construct
while satisfying the shape check (`class GeneratedScene` present). -/
def axesExample : Str :=
  str "class GeneratedScene(Scene):\n    def construct(self):\n        ax = Axes()"

/-! ## Theorems -/

/-- The capture loop's screenshots are exactly frames `0..n-1`, in order. -/
theorem frameSteps_shots (n : Nat) :
    (frameSteps n).filterMap shotIndex = List.range n := by
  induction n with
  | zero => rfl
  | succ k ih =>
    simp [frameSteps, List.filterMap_append, ih, List.range_succ, shotIndex]

/-- The capture loop never invokes the encoder. -/
theorem frameSteps_no_encode (n : Nat) :
    (frameSteps n).count P5Ev.encode = 0 := by
  induction n with
  | zero => rfl
  | succ k ih =>
    simp [frameSteps, List.count_append, ih, List.count_cons, shotIndex]

/-- C3: for every duration `D` (seconds), `generateWithP5` captures exactly
`30 × D` screenshot frames, with indices `0` to `30 × D − 1` in order, and the
external encoder is invoked exactly once, strictly after every capture (it is
the final action of the trace). -/
theorem p5_capture_exact (D : Nat) :
    (p5Trace D).filterMap shotIndex = List.range (30 * D) ∧
    ((p5Trace D).filterMap shotIndex).length = 30 * D ∧
    (p5Trace D).count P5Ev.encode = 1 ∧
    (p5Trace D).getLast? = some P5Ev.encode := by
  refine ⟨?_, ?_, ?_, ?_⟩
  · simp [p5Trace, List.filterMap_append, frameSteps_shots, totalFrames,
      frameRateValue, shotIndex, Nat.mul_comm]
  · simp [p5Trace, List.filterMap_append, frameSteps_shots, totalFrames,
      frameRateValue, shotIndex, Nat.mul_comm]
  · simp [p5Trace, List.count_append, frameSteps_no_encode]
  · simp [p5Trace]

/-- C6: when the CLI exits zero and the canonical per-job output
`MEDIA_DIR/<runId>.mp4` already exists, the close handler resolves to it
without running the recursive search or the common-locations loop. -/
theorem manim_short_circuit (st : FsState) (sd : Str)
    (h : st.finalVideoExists = true) :
    (onClose 0 st sd).result = .resolved ∧
    (onClose 0 st sd).searchedNested = false ∧
    (onClose 0 st sd).checkedCommon = false := by
  simp [onClose, h]

/-- Witness for `manim_short_circuit` at a concrete filesystem state. -/
theorem manim_short_circuit_witness :
    (onClose 0 ⟨true, some [], false⟩ []).result = .resolved ∧
    (onClose 0 ⟨true, some [], false⟩ []).searchedNested = false ∧
    (onClose 0 ⟨true, some [], false⟩ []).checkedCommon = false :=
  manim_short_circuit ⟨true, some [], false⟩ [] rfl

/-- C1 (counterexample): with exit code zero, the canonical output missing,
and an existing but empty working directory (no video anywhere, no partial
artifacts), the close handler rejects with the no-output message and the
working directory still exists afterwards — the claim that every zero-exit
path with the output missing removes the working directory is false. -/
theorem manim_cleanup_counterexample :
    (onClose 0 ⟨false, some [], false⟩ []).result = .rejected noOutputMsg ∧
    (onClose 0 ⟨false, some [], false⟩ []).fs.outDir = some [] := by
  constructor <;> rfl

/-- C1 (amended): every path of the close handler removes the working
directory — including the short-circuit branch — except the path where the
CLI exits zero, no `GeneratedScene.mp4` is found (neither by the recursive
search nor at the common locations) and no partial artifacts exist, which
rejects with the no-output message and leaves the directory in place. -/
theorem manim_cleanup_total (c : Int) (st : FsState) (sd : Str)
    (h : ¬(c = 0 ∧ st.finalVideoExists = false ∧
        findManimVideo st.outDir = none ∧
        findCommonLocation st.outDir = none ∧
        checkForPartialFiles st.outDir = [])) :
    (onClose c st sd).fs.outDir = none := by
  by_cases hc : c = 0
  · subst hc
    by_cases hf : st.finalVideoExists = true
    · simp [onClose, hf]
    · have hf' : st.finalVideoExists = false := by
        simpa using hf
      cases hfind : findManimVideo st.outDir with
      | some p => simp [onClose, hf', hfind]
      | none =>
        cases hcom : findCommonLocation st.outDir with
        | some p => simp [onClose, hf', hfind, hcom]
        | none =>
          have hp : checkForPartialFiles st.outDir ≠ [] := by
            intro hnil
            exact h ⟨rfl, hf', hfind, hcom, hnil⟩
          have hp' : 0 < (checkForPartialFiles st.outDir).length :=
            List.length_pos.mpr hp
          by_cases hr : st.rootScene = true
          · simp [onClose, hf', hfind, hcom, hp', hr]
          · have hr' : st.rootScene = false := by
              simpa using hr
            simp [onClose, hf', hfind, hcom, hp', hr']
  · simp [onClose, hc]

/-- Witness for `manim_cleanup_total`: a nonzero exit removes the working
directory. -/
theorem manim_cleanup_total_witness :
    (onClose 1 ⟨false, some [], false⟩ []).fs.outDir = none :=
  manim_cleanup_total 1 ⟨false, some [], false⟩ [] (by decide)

/-- C5 (counterexample): exit code zero, `GeneratedScene.mp4` absent from the
working directory (recursive search and common locations both fail), a
partial artifact present — but a stray `MEDIA_DIR/GeneratedScene.mp4` exists
at the media root, so the handler resolves successfully instead of rejecting
with the incomplete-render error. -/
theorem manim_incomplete_counterexample :
    findManimVideo (some [FsTree.file (str "uncached_00001.mp4")]) = none ∧
    findCommonLocation (some [FsTree.file (str "uncached_00001.mp4")]) = none ∧
    checkForPartialFiles (some [FsTree.file (str "uncached_00001.mp4")]) ≠ [] ∧
    (onClose 0 ⟨false, some [FsTree.file (str "uncached_00001.mp4")], true⟩ []).result
      = .resolved := by
  refine ⟨rfl, rfl, by decide, rfl⟩

/-- C5 (amended): when the CLI exits zero, the canonical output and
`GeneratedScene.mp4` are absent from the working directory and the common
locations, partial artifacts exist, **and** no stray `GeneratedScene.mp4`
sits at the media root, the handler rejects with the incomplete-render error
and removes the working directory. -/
theorem manim_incomplete_reject (st : FsState) (sd : Str)
    (h1 : st.finalVideoExists = false)
    (h2 : findManimVideo st.outDir = none)
    (h3 : findCommonLocation st.outDir = none)
    (h4 : checkForPartialFiles st.outDir ≠ [])
    (h5 : st.rootScene = false) :
    (onClose 0 st sd).result = .rejected incompleteMsg ∧
    (onClose 0 st sd).fs.outDir = none := by
  have h4' : 0 < (checkForPartialFiles st.outDir).length :=
    List.length_pos.mpr h4
  constructor <;> simp [onClose, h1, h2, h3, h4', h5]

/-- Witness for `manim_incomplete_reject` at a concrete filesystem state. -/
theorem manim_incomplete_reject_witness :
    (onClose 0 ⟨false, some [FsTree.file (str "uncached_00001.mp4")], false⟩ []).result
      = .rejected incompleteMsg ∧
    (onClose 0 ⟨false, some [FsTree.file (str "uncached_00001.mp4")], false⟩ []).fs.outDir
      = none :=
  manim_incomplete_reject ⟨false, some [FsTree.file (str "uncached_00001.mp4")], false⟩ []
    rfl rfl rfl (by decide) rfl

/-- C2 (counterexample): when code generation fails, the job record created
by `POST /api/generate` stays at status `pending` forever — it never reaches
`done`, contradicting the claim that every job eventually does on both the
success and failure paths. -/
theorem job_stuck_pending_counterexample :
    ((postGenerate (.error (str "API request failed")) (str "manim")
        (.ok (str "GeneratedScene.mp4"))).jobStates.getLast?.map Job.status
      = some JStatus.pending) ∧
    doneTransitions (postGenerate (.error (str "API request failed")) (str "manim")
        (.ok (str "GeneratedScene.mp4"))).jobStates = 0 := by
  constructor <;> rfl

/-- C2 (amended): each generate request creates exactly one job record,
starting as `pending`; the status never moves from `done` back to `pending`;
when code generation succeeds the job transitions `pending → done` exactly
once (on both the render success and render failure paths); when code
generation fails the job performs no transition and remains `pending`
forever. -/
theorem job_status_lifecycle (cg : Except Str Str) (engine : Str)
    (render : Except Str Str) :
    (postGenerate cg engine render).jobStates.head? = some ⟨[], .pending, none⟩ ∧
    noBackTransition (postGenerate cg engine render).jobStates ∧
    doneTransitions (postGenerate cg engine render).jobStates
      = (if exceptOk cg then 1 else 0) ∧
    ((postGenerate cg engine render).jobStates.getLast?.map Job.status
        = some JStatus.done ↔ exceptOk cg = true) := by
  cases cg with
  | error e =>
    simp [postGenerate, noBackTransition, doneTransitions, exceptOk]
  | ok c =>
    by_cases hv : (engine == str "p5" || engine == str "manim") = true
    · cases render with
      | ok vp =>
        simp [postGenerate, hv, noBackTransition, doneTransitions, exceptOk]
      | error er =>
        simp [postGenerate, hv, noBackTransition, doneTransitions, exceptOk]
    · have hv' : (engine == str "p5" || engine == str "manim") = false :=
        Bool.eq_false_iff.mpr hv
      cases render with
      | ok vp =>
        simp [postGenerate, hv', noBackTransition, doneTransitions, exceptOk]
      | error er =>
        simp [postGenerate, hv', noBackTransition, doneTransitions, exceptOk]

/-- C4 (counterexample): the `services/codegenService.js` variant of
`generateCode` never runs the denylist: code containing `Axes(` (matched by
the first banned pattern) passes its validation for engine `manim` and is
handed to the request handler, which does invoke a renderer for it. -/
theorem manim_denylist_gap_counterexample :
    ((firstBanned bannedPatterns (cleanCode axesExample)).map BannedPat.display
      = some (str "/Axes\\s*\\(/")) ∧
    generateCodeServices axesExample (str "manim") = .ok (cleanCode axesExample) ∧
    (postGenerate (generateCodeServices axesExample (str "manim")) (str "manim")
        (.error (str "TypeError"))).renderSpawned = true := by
  refine ⟨by decide, rfl, rfl⟩

/-- C4 (amended): in the codegen variant that applies the denylist
(`utils/codegenService.js`), generated Manim code matching any banned pattern
makes `generateCode` raise the validation error naming that pattern, and the
request handler then spawns no renderer; the `services/codegenService.js`
variant runs only the shape check and lets such code through to the
renderer. -/
theorem manim_denylist_blocks (raw : Str) (d : Str)
    (h : (firstBanned bannedPatterns (cleanCode raw)).map BannedPat.display = some d) :
    generateCodeUtils raw (str "manim") = .error (prohibitedMsg d) ∧
    ∀ render, (postGenerate (generateCodeUtils raw (str "manim")) (str "manim")
      render).renderSpawned = false := by
  obtain ⟨p, hp, hd⟩ := Option.map_eq_some'.mp h
  have hval : validateManimCode (cleanCode raw) = .error (prohibitedMsg d) := by
    simp [validateManimCode, hp, hd]
  have hkey : generateCodeUtils raw (str "manim") =
      (match validateManimCode (cleanCode raw) with
       | .error e => Except.error e
       | .ok _ =>
         match validateGeneratedCode (cleanCode raw) (str "manim") with
         | .error e => Except.error e
         | .ok _ => Except.ok (cleanCode raw)) := rfl
  have hgen : generateCodeUtils raw (str "manim") = .error (prohibitedMsg d) := by
    rw [hkey, hval]
  exact ⟨hgen, fun render => by rw [hgen]; rfl⟩

/-- Witness for `manim_denylist_blocks` at the concrete `Axes(` sample. -/
theorem manim_denylist_blocks_witness :
    generateCodeUtils axesExample (str "manim")
      = .error (prohibitedMsg (str "/Axes\\s*\\(/")) ∧
    (postGenerate (generateCodeUtils axesExample (str "manim")) (str "manim")
      (.ok (str "GeneratedScene.mp4"))).renderSpawned = false :=
  ⟨(manim_denylist_blocks axesExample (str "/Axes\\s*\\(/") (by decide)).1,
    (manim_denylist_blocks axesExample (str "/Axes\\s*\\(/") (by decide)).2
      (.ok (str "GeneratedScene.mp4"))⟩

/-- C7: generated p5 output that — after fence stripping and trimming — does
not begin with `function setup()` is rejected by both codegen variants with
the p5 shape-validation error, and the request handler spawns no renderer
for it. -/
theorem p5_shape_reject (raw : Str)
    (h : (str "function setup()").isPrefixOf (trimCL (cleanCode raw)) = false) :
    generateCodeUtils raw (str "p5") = .error p5ShapeMsg ∧
    generateCodeServices raw (str "p5") = .error p5ShapeMsg ∧
    ∀ render, (postGenerate (generateCodeUtils raw (str "p5")) (str "p5")
      render).renderSpawned = false := by
  have hval : validateGeneratedCode (cleanCode raw) (str "p5") = .error p5ShapeMsg := by
    simp [validateGeneratedCode, h]
  have hkey : generateCodeUtils raw (str "p5") =
      (match validateGeneratedCode (cleanCode raw) (str "p5") with
       | .error e => Except.error e
       | .ok _ => Except.ok (cleanCode raw)) := rfl
  have hkey2 : generateCodeServices raw (str "p5") =
      (match validateGeneratedCode (cleanCode raw) (str "p5") with
       | .error e => Except.error e
       | .ok _ => Except.ok (cleanCode raw)) := rfl
  have hgen : generateCodeUtils raw (str "p5") = .error p5ShapeMsg := by
    rw [hkey, hval]
  refine ⟨hgen, by rw [hkey2, hval], fun render => by rw [hgen]; rfl⟩

/-- Witness for `p5_shape_reject` at a concrete non-conforming output. -/
theorem p5_shape_reject_witness :
    generateCodeUtils (str "let x = 1;") (str "p5") = .error p5ShapeMsg ∧
    generateCodeServices (str "let x = 1;") (str "p5") = .error p5ShapeMsg :=
  ⟨(p5_shape_reject (str "let x = 1;") (by decide)).1,
    (p5_shape_reject (str "let x = 1;") (by decide)).2.1⟩

/-- C8: whenever the environment-variable override (`MANIM_PATH`,
`CHROME_PATH`) names an executable path, each detector returns exactly that
path, regardless of what every other discovery method (PATH lookup,
chrome-launcher scan, platform path scan, registry) would report. -/
theorem env_override_priority
    (hm : ManimHost) (hc : ChromeHost) (h3 : ChromeHost3) (pm pc p3 : Str)
    (em : hm.envPath = some pm) (xm : hm.executable pm = true)
    (ec : hc.envPath = some pc) (xc : hc.executable pc = true)
    (e3 : h3.envPath = some p3) (x3 : h3.fileOk p3 = true) :
    detectManim hm = .ok pm ∧ detectChrome hc = .ok pc ∧
    detectChrome3 h3 = .ok p3 := by
  refine ⟨?_, ?_, ?_⟩
  · simp [detectManim, em, xm]
  · simp [detectChrome, ec, xc]
  · simp [detectChrome3, e3, x3]

/-- Witness for `env_override_priority` at concrete hosts whose other
discovery methods would all answer differently. -/
theorem env_override_priority_witness :
    detectManim ⟨some (str "/opt/manim"), fun _ => true,
        some (str "/usr/bin/manim"), none, true, true⟩ = .ok (str "/opt/manim") ∧
    detectChrome ⟨some (str "/opt/chrome"), fun _ => true,
        some [str "/usr/bin/chromium"], fun _ => none⟩ = .ok (str "/opt/chrome") ∧
    detectChrome3 ⟨some (str "/opt/chrome"), fun _ => true, true,
        some [str "/usr/bin/chromium"], fun _ => none, [str "/usr/bin/chrome"],
        none⟩ = .ok (str "/opt/chrome") :=
  env_override_priority
    ⟨some (str "/opt/manim"), fun _ => true, some (str "/usr/bin/manim"),
      none, true, true⟩
    ⟨some (str "/opt/chrome"), fun _ => true, some [str "/usr/bin/chromium"],
      fun _ => none⟩
    ⟨some (str "/opt/chrome"), fun _ => true, true, some [str "/usr/bin/chromium"],
      fun _ => none, [str "/usr/bin/chrome"], none⟩
    (str "/opt/manim") (str "/opt/chrome") (str "/opt/chrome")
    rfl rfl rfl rfl rfl rfl

/-- If a three-element `findSome?` finds nothing, each lookup was empty. -/
theorem findSome3_none {f : Str → Option Str} {a b c : Str}
    (h : [a, b, c].findSome? f = none) :
    f a = none ∧ f b = none ∧ f c = none := by
  cases ha : f a <;> cases hb : f b <;> cases hc : f c <;>
    simp [List.findSome?_cons, List.findSome?_nil, ha, hb, hc] at h ⊢

/-- C10: when the environment override names a path that is missing or not
executable, the detectors (`detectManim`, `detectChrome`) do not raise for
that reason: the result is exactly that of the remaining discovery chain,
and an error is only possible once every lookup of that chain has failed. -/
theorem env_override_fallthrough
    (hm : ManimHost) (hc : ChromeHost) (pm pc : Str)
    (em : hm.envPath = some pm) (xm : hm.executable pm = false)
    (ec : hc.envPath = some pc) (xc : hc.executable pc = false) :
    detectManim hm = detectManimScan hm ∧
    detectChrome hc = detectChromeScan hc ∧
    (∀ e, detectManim hm = .error e →
      hm.whichManim = none ∧ hm.whichManimce = none) ∧
    (∀ e, detectChrome hc = .error e →
      (hc.installations = none ∨ hc.installations = some []) ∧
      hc.whichResult (str "google-chrome") = none ∧
      hc.whichResult (str "chrome") = none ∧
      hc.whichResult (str "chromium") = none) := by
  have hman : detectManim hm = detectManimScan hm := by
    simp [detectManim, em, xm]
  have hchr : detectChrome hc = detectChromeScan hc := by
    simp [detectChrome, ec, xc]
  refine ⟨hman, hchr, ?_, ?_⟩
  · intro e he
    rw [hman] at he
    cases h1 : hm.whichManim with
    | some p => simp [detectManimScan, h1] at he
    | none =>
      cases h2 : hm.whichManimce with
      | some p => simp [detectManimScan, h1, h2] at he
      | none => exact ⟨rfl, rfl⟩
  · intro e he
    rw [hchr] at he
    cases h1 : hc.installations with
    | some l =>
      cases l with
      | nil =>
        refine ⟨Or.inr rfl, ?_⟩
        rw [detectChromeScan, h1] at he
        cases hw : [str "google-chrome", str "chrome", str "chromium"].findSome?
            hc.whichResult with
        | some p => simp [hw] at he
        | none => exact findSome3_none hw
      | cons i is =>
        rw [detectChromeScan, h1] at he
        cases hf : (i :: is).find? (fun p => !(isBetaDev p)) <;> simp [hf] at he
    | none =>
      refine ⟨Or.inl rfl, ?_⟩
      rw [detectChromeScan, h1] at he
      cases hw : [str "google-chrome", str "chrome", str "chromium"].findSome?
          hc.whichResult with
      | some p => simp [hw] at he
      | none => exact findSome3_none hw

/-- Witness for `env_override_fallthrough`: a dead override falls through to
the PATH lookup results. -/
theorem env_override_fallthrough_witness :
    detectManim ⟨some (str "/bad/manim"), fun _ => false,
        some (str "/usr/bin/manim"), none, true, true⟩
      = detectManimScan ⟨some (str "/bad/manim"), fun _ => false,
        some (str "/usr/bin/manim"), none, true, true⟩ ∧
    detectChrome ⟨some (str "/bad/chrome"), fun _ => false, none,
        fun _ => some (str "/usr/bin/chromium")⟩
      = detectChromeScan ⟨some (str "/bad/chrome"), fun _ => false, none,
        fun _ => some (str "/usr/bin/chromium")⟩ :=
  ⟨(env_override_fallthrough
      ⟨some (str "/bad/manim"), fun _ => false, some (str "/usr/bin/manim"),
        none, true, true⟩
      ⟨some (str "/bad/chrome"), fun _ => false, none,
        fun _ => some (str "/usr/bin/chromium")⟩
      (str "/bad/manim") (str "/bad/chrome") rfl rfl rfl rfl).1,
    (env_override_fallthrough
      ⟨some (str "/bad/manim"), fun _ => false, some (str "/usr/bin/manim"),
        none, true, true⟩
      ⟨some (str "/bad/chrome"), fun _ => false, none,
        fun _ => some (str "/usr/bin/chromium")⟩
      (str "/bad/manim") (str "/bad/chrome") rfl rfl rfl rfl).2.1⟩

/-- A flush from a state satisfying the cursor invariant writes exactly the
missing suffix: afterwards everything is delivered and the cursor sits at the
end. -/
theorem sendLogs_flush (logs : List Str) (s : StreamSt)
    (h1 : s.lastIndex ≤ logs.length) (h2 : s.delivered = logs.take s.lastIndex) :
    sendLogs logs s = ⟨logs.length, logs, s.closed, s.doneEvent⟩ := by
  obtain ⟨li, del, cl, de⟩ := s
  simp only [sendLogs] at *
  by_cases hlt : li < logs.length
  · simp only [hlt, if_pos]
    simp [h2, List.take_append_drop]
  · have hle : logs.length ≤ li := Nat.le_of_not_lt hlt
    have heq : li = logs.length := Nat.le_antisymm h1 hle
    subst heq
    simp [h2]

/-- The invariant holds on connect (the immediate initial flush). -/
theorem connect_inv (j : Job) : StreamInv j (connectStream j) := by
  have h := sendLogs_flush j.logs ⟨0, [], false, none⟩ (Nat.zero_le _) rfl
  rw [connectStream, h]
  exact ⟨Nat.le_refl _, (List.take_length _).symm, rfl, rfl⟩

/-- A tick while the job is still `pending` flushes and keeps the stream
open: the invariant is preserved. -/
theorem tick_pending_inv (j : Job) (s : StreamSt)
    (hp : j.status = .pending) (hi : StreamInv j s) :
    StreamInv j (tickStream j s) := by
  obtain ⟨h1, h2, h3, h4⟩ := hi
  rw [tickStream, h3]
  simp only [Bool.false_eq_true, if_false]
  rw [sendLogs_flush j.logs s h1 h2, hp]
  simp only [reduceCtorEq, if_false]
  exact ⟨Nat.le_refl _, (List.take_length _).symm, h3, h4⟩

/-- Appending a log line preserves the invariant: already-delivered lines are
an unchanged prefix of the grown log list. -/
theorem push_inv (j : Job) (s : StreamSt) (l : Str) (hi : StreamInv j s) :
    StreamInv { j with logs := j.logs ++ [l] } s := by
  obtain ⟨h1, h2, h3, h4⟩ := hi
  refine ⟨?_, ?_, h3, h4⟩
  · simpa using Nat.le_trans h1 (Nat.le_succ _)
  · simpa [List.take_append_of_le_length h1] using h2

/-- Running only `push`/`tick` events over a `pending` job preserves the
invariant and leaves the job `pending`; the run factors through the reached
state. -/
theorem runStream_running (pre : List SrvEv) :
    ∀ (j : Job) (s : StreamSt) (rest : List SrvEv),
    (∀ ev ∈ pre, isRunningEv ev = true) → j.status = .pending → StreamInv j s →
    ∃ j' s', j'.status = .pending ∧ StreamInv j' s' ∧
      runStream j s (pre ++ rest) = runStream j' s' rest := by
  induction pre with
  | nil =>
    intro j s rest _ hp hi
    exact ⟨j, s, hp, hi, rfl⟩
  | cons ev evs ih =>
    intro j s rest hall hp hi
    have hall' : ∀ e ∈ evs, isRunningEv e = true :=
      fun e he => hall e (List.mem_cons_of_mem ev he)
    have hev : isRunningEv ev = true := hall ev (List.mem_cons_self ev evs)
    match ev with
    | .push l =>
      have hstep : runStream j s ((SrvEv.push l :: evs) ++ rest)
          = runStream { j with logs := j.logs ++ [l] } s (evs ++ rest) := rfl
      rw [hstep]
      exact ih _ _ rest hall' hp (push_inv j s l hi)
    | .tick =>
      have hstep : runStream j s ((SrvEv.tick :: evs) ++ rest)
          = runStream j (tickStream j s) (evs ++ rest) := rfl
      rw [hstep]
      exact ih _ _ rest hall' hp (tick_pending_inv j s hp hi)
    | .complete vp l => simp [isRunningEv] at hev

/-- Once the stream is closed, further ticks change nothing. -/
theorem runStream_closed (evs : List SrvEv) :
    ∀ (j : Job) (s : StreamSt),
    (∀ ev ∈ evs, ev = SrvEv.tick) → s.closed = true →
    runStream j s evs = (j, s) := by
  induction evs with
  | nil => intro j s _ _; rfl
  | cons ev rest ih =>
    intro j s hall hc
    have hev : ev = SrvEv.tick := hall ev (List.mem_cons_self ev rest)
    subst hev
    have hstep : runStream j s (SrvEv.tick :: rest)
        = runStream j (tickStream j s) rest := rfl
    rw [hstep, tickStream, hc]
    simp only [if_true]
    exact ih j s (fun e he => hall e (List.mem_cons_of_mem _ he)) hc

/-- C9: a client connected while the job is still `pending` receives, over
the lifetime of the stream, exactly the job's log lines, each once and in
append order (the delivered sequence equals the final log list), and the
stream then closes with a terminal `done` event carrying the job's result
path.  `pre` is the interleaving of log appends and poll ticks before the
job's terminal mutation, `post` the (nonempty) ticks after it. -/
theorem log_stream_exact (j0 : Job) (vp : Option Str) (lastLine : Str)
    (pre post : List SrvEv)
    (h0 : j0.status = .pending)
    (hpre : ∀ ev ∈ pre, isRunningEv ev = true)
    (hpost : ∀ ev ∈ post, ev = SrvEv.tick)
    (hne : post ≠ []) :
    (runStream j0 (connectStream j0)
        (pre ++ SrvEv.complete vp lastLine :: post)).2.delivered
      = (runStream j0 (connectStream j0)
        (pre ++ SrvEv.complete vp lastLine :: post)).1.logs ∧
    (runStream j0 (connectStream j0)
        (pre ++ SrvEv.complete vp lastLine :: post)).2.closed = true ∧
    (runStream j0 (connectStream j0)
        (pre ++ SrvEv.complete vp lastLine :: post)).2.doneEvent = some vp := by
  obtain ⟨j', s', hp', hi', heq⟩ :=
    runStream_running pre j0 (connectStream j0)
      (SrvEv.complete vp lastLine :: post) hpre h0 (connect_inv j0)
  rw [heq]
  have hstep : runStream j' s' (SrvEv.complete vp lastLine :: post)
      = runStream ⟨j'.logs ++ [lastLine], .done, vp⟩ s' post := rfl
  rw [hstep]
  obtain ⟨t, rest, hpost'⟩ : ∃ t rest, post = t :: rest := by
    cases post with
    | nil => exact absurd rfl hne
    | cons t rest => exact ⟨t, rest, rfl⟩
  subst hpost'
  have ht : t = SrvEv.tick := hpost t (List.mem_cons_self t rest)
  subst ht
  set jd : Job := ⟨j'.logs ++ [lastLine], .done, vp⟩ with hjd
  obtain ⟨h1, h2, h3, h4⟩ := hi'
  have hid : StreamInv jd s' := by
    refine ⟨?_, ?_, h3, h4⟩
    · simpa [hjd] using Nat.le_trans h1 (Nat.le_succ _)
    · simpa [hjd, List.take_append_of_le_length h1] using h2
  have hstep2 : runStream jd s' (SrvEv.tick :: rest)
      = runStream jd (tickStream jd s') rest := rfl
  rw [hstep2]
  have htick : tickStream jd s'
      = ⟨jd.logs.length, jd.logs, true, some vp⟩ := by
    rw [tickStream, h3]
    simp only [Bool.false_eq_true, if_false]
    rw [sendLogs_flush jd.logs s' hid.1 hid.2.1]
    simp [hjd]
  rw [htick]
  rw [runStream_closed rest jd _
    (fun e he => hpost e (List.mem_cons_of_mem _ he)) rfl]
  exact ⟨rfl, rfl, rfl⟩

/-- Witness for `log_stream_exact` on a concrete run: two appends and
interleaved ticks; every line is delivered once, in order, then the terminal
event fires. -/
theorem log_stream_exact_witness :
    (runStream ⟨[str "Code generation started"], .pending, none⟩
        (connectStream ⟨[str "Code generation started"], .pending, none⟩)
        ([SrvEv.push (str "Manim script written"), SrvEv.tick]
          ++ SrvEv.complete (some (str "/videos/a.mp4")) (str "Rendering complete")
            :: [SrvEv.tick, SrvEv.tick])).2.delivered
      = (runStream ⟨[str "Code generation started"], .pending, none⟩
        (connectStream ⟨[str "Code generation started"], .pending, none⟩)
        ([SrvEv.push (str "Manim script written"), SrvEv.tick]
          ++ SrvEv.complete (some (str "/videos/a.mp4")) (str "Rendering complete")
            :: [SrvEv.tick, SrvEv.tick])).1.logs ∧
    (runStream ⟨[str "Code generation started"], .pending, none⟩
        (connectStream ⟨[str "Code generation started"], .pending, none⟩)
        ([SrvEv.push (str "Manim script written"), SrvEv.tick]
          ++ SrvEv.complete (some (str "/videos/a.mp4")) (str "Rendering complete")
            :: [SrvEv.tick, SrvEv.tick])).2.doneEvent
      = some (some (str "/videos/a.mp4")) :=
  ⟨(log_stream_exact ⟨[str "Code generation started"], .pending, none⟩
      (some (str "/videos/a.mp4")) (str "Rendering complete")
      [SrvEv.push (str "Manim script written"), SrvEv.tick]
      [SrvEv.tick, SrvEv.tick] rfl (by decide) (by decide) (by decide)).1,
    (log_stream_exact ⟨[str "Code generation started"], .pending, none⟩
      (some (str "/videos/a.mp4")) (str "Rendering complete")
      [SrvEv.push (str "Manim script written"), SrvEv.tick]
      [SrvEv.tick, SrvEv.tick] rfl (by decide) (by decide) (by decide)).2.2⟩

end Flux
